import Mathlib

/-!
Verification of the CashX cashback-rewards backend (src/backend/server.py).

The embedding models the MongoDB collections as lists (Mongo `find_one`
returns the first matching document in natural order, `update_one`
updates the first matching document, `insert_one` appends) and monetary
float values as rationals.  Each FastAPI endpoint is embedded as a pure
function from the store state (plus request data and an identifier/clock
supply for `uuid.uuid4()` / `datetime.utcnow()`) to `Except HTTPError`
of the new state and the response; an `HTTPException` raised in the
handler is an `error` result and, since every raise in the source occurs
before the first database write, leaves the store unchanged.
-/

namespace CashX

/-- Python enum TransactionStatus. -/
inductive TransactionStatus where
  | PENDING
  | VERIFIED
  | REJECTED
deriving DecidableEq, Repr

/-- Python enum VerificationMethod. -/
inductive VerificationMethod where
  | WEBHOOK
  | MANUAL
  | SELF_REPORTED
deriving DecidableEq, Repr

/-- Python enum RedemptionMethod. -/
inductive RedemptionMethod where
  | BANK_TRANSFER
  | UPI
deriving DecidableEq, Repr

/-- Python enum RedemptionStatus. -/
inductive RedemptionStatus where
  | PENDING
  | PROCESSING
  | COMPLETED
  | FAILED
deriving DecidableEq, Repr

/-- Pydantic model User (the password hash lives beside it in the stored
document and is owned by the auth layer; it plays no role in the claims).
Datetimes are modelled as naturals. -/
structure User where
  id : String
  email : String
  name : String
  created_at : Nat
  cashback_balance : Rat
deriving DecidableEq, Repr

/-- Pydantic model BankAccount. -/
structure BankAccount where
  id : String
  user_id : String
  account_holder : String
  account_number : String
  ifsc_code : String
  bank_name : String
  is_default : Bool
  created_at : Nat
deriving DecidableEq, Repr

/-- Pydantic model UPIDetails. -/
structure UPIDetails where
  id : String
  user_id : String
  upi_id : String
  is_default : Bool
  created_at : Nat
deriving DecidableEq, Repr

/-- Pydantic model Product. -/
structure Product where
  id : String
  title : String
  description : String
  price : Rat
  image_url : String
  amazon_url : String
  category : String
  cashback_percent : Rat
  created_at : Nat
deriving DecidableEq, Repr

/-- Pydantic model Transaction. -/
structure Transaction where
  id : String
  user_id : String
  product_id : String
  amazon_order_id : Option String
  amount : Rat
  cashback_amount : Rat
  status : TransactionStatus
  verification_method : Option VerificationMethod
  verified_at : Option Nat
  verification_notes : Option String
  screenshot_url : Option String
  created_at : Nat
deriving DecidableEq, Repr

/-- Pydantic model TransactionCreate (request body of POST /transactions). -/
structure TransactionCreate where
  product_id : String
  amazon_order_id : Option String
  amount : Rat
  verification_method : VerificationMethod
  screenshot_url : Option String
deriving DecidableEq, Repr

/-- Pydantic model RedemptionRequest. -/
structure RedemptionRequest where
  id : String
  user_id : String
  amount : Rat
  method : RedemptionMethod
  status : RedemptionStatus
  bank_account_id : Option String
  upi_id : Option String
  notes : Option String
  created_at : Nat
  processed_at : Option Nat
deriving DecidableEq, Repr

/-- Pydantic model RedemptionRequestCreate (request body of POST /redemptions). -/
structure RedemptionRequestCreate where
  amount : Rat
  method : RedemptionMethod
  bank_account_id : Option String
  upi_id : Option String
deriving DecidableEq, Repr

/-- The MongoDB database: each collection as a list in insertion order. -/
structure DB where
  users : List User
  products : List Product
  transactions : List Transaction
  bank_accounts : List BankAccount
  upi_details : List UPIDetails
  redemption_requests : List RedemptionRequest
deriving DecidableEq, Repr

/-- A FastAPI HTTPException: status code and detail string. -/
structure HTTPError where
  status_code : Nat
  detail : String
deriving DecidableEq, Repr

/-- Mongo update_one: apply f to the first element satisfying p. -/
def updateOne (p : α → Bool) (f : α → α) : List α → List α
  | [] => []
  | x :: xs => if p x then f x :: xs else x :: updateOne p f xs

/-- Python falsiness of an optional string (`payload.get(...)` returning
None, or an absent/empty optional body field): both a missing value and
the empty string are falsy. -/
def isBlank : Option String → Bool
  | none => true
  | some s => s == ""

/-- Dependency get_current_user: resolves the authenticated user id
against the users collection; 401 if absent (JWT decoding itself is the
auth collaborator's concern and is not modelled). -/
def get_current_user (db : DB) (uid : String) : Except HTTPError User :=
  match db.users.find? (fun u => u.id == uid) with
  | none => Except.error ⟨401, "User not found"⟩
  | some u => Except.ok u

/-- Endpoint POST /transactions (submitClaim).  Looks up the product,
derives the cashback amount, creates the transaction in PENDING and
appends it; 404 if the product is absent.  `newId` stands for the
generated uuid and `now` for `datetime.utcnow()`. -/
def create_transaction (db : DB) (uid : String) (t : TransactionCreate)
    (newId : String) (now : Nat) : Except HTTPError (DB × Transaction) :=
  match get_current_user db uid with
  | Except.error e => Except.error e
  | Except.ok current_user =>
    match db.products.find? (fun p => p.id == t.product_id) with
    | none => Except.error ⟨404, "Product not found"⟩
    | some product =>
      let cashback_amount : Rat := (t.amount * product.cashback_percent) / 100
      let new_transaction : Transaction :=
        { id := newId
          user_id := current_user.id
          product_id := t.product_id
          amazon_order_id := t.amazon_order_id
          amount := t.amount
          cashback_amount := cashback_amount
          status := TransactionStatus.PENDING
          verification_method := some t.verification_method
          verified_at := none
          verification_notes := none
          screenshot_url := t.screenshot_url
          created_at := now }
      Except.ok ({ db with transactions := db.transactions ++ [new_transaction] },
                 new_transaction)

/-- Endpoint POST /redemptions (requestRedemption).  Checks the balance,
then the method-dependent destination field, then debits the balance and
appends the request. -/
def create_redemption_request (db : DB) (uid : String)
    (redemption : RedemptionRequestCreate) (newId : String) (now : Nat) :
    Except HTTPError (DB × RedemptionRequest) :=
  match get_current_user db uid with
  | Except.error e => Except.error e
  | Except.ok current_user =>
    if current_user.cashback_balance < redemption.amount then
      Except.error ⟨400, "Insufficient cashback balance"⟩
    else if redemption.method = RedemptionMethod.BANK_TRANSFER ∧
            isBlank redemption.bank_account_id = true then
      Except.error ⟨400, "Bank account ID is required for bank transfers"⟩
    else if redemption.method = RedemptionMethod.UPI ∧
            isBlank redemption.upi_id = true then
      Except.error ⟨400, "UPI ID is required for UPI transfers"⟩
    else
      let new_redemption : RedemptionRequest :=
        { id := newId
          user_id := current_user.id
          amount := redemption.amount
          method := redemption.method
          status := RedemptionStatus.PENDING
          bank_account_id := redemption.bank_account_id
          upi_id := redemption.upi_id
          notes := none
          created_at := now
          processed_at := none }
      let users' := updateOne (fun u => u.id == current_user.id)
        (fun u => { u with cashback_balance := u.cashback_balance - redemption.amount })
        db.users
      Except.ok ({ db with
                    users := users'
                    redemption_requests := db.redemption_requests ++ [new_redemption] },
                 new_redemption)

/-- Webhook response body of POST /webhooks/amazon-associates. -/
inductive WebhookResponse where
  | noMatch
  | success (transaction_id : String)
deriving DecidableEq, Repr

/-- Endpoint POST /webhooks/amazon-associates (verifyByWebhook).
`order_id` is `payload.get("amazon_order_id")`.  400 if falsy; soft
no-match response if no transaction carries the order id; otherwise
unconditionally sets the first matching transaction VERIFIED and credits
its cashback amount to its user. -/
def amazon_associates_webhook (db : DB) (order_id : Option String) (now : Nat) :
    Except HTTPError (DB × WebhookResponse) :=
  if isBlank order_id = true then
    Except.error ⟨400, "Missing order ID"⟩
  else
    match db.transactions.find? (fun t => t.amazon_order_id == order_id) with
    | none => Except.ok (db, WebhookResponse.noMatch)
    | some transaction =>
      let transactions' := updateOne (fun t => t.amazon_order_id == order_id)
        (fun t => { t with
                     status := TransactionStatus.VERIFIED
                     verification_method := some VerificationMethod.WEBHOOK
                     verified_at := some now })
        db.transactions
      let users' := updateOne (fun u => u.id == transaction.user_id)
        (fun u => { u with cashback_balance := u.cashback_balance + transaction.cashback_amount })
        db.users
      Except.ok ({ db with transactions := transactions', users := users' },
                 WebhookResponse.success transaction.id)

/-- Endpoint PUT /admin/transactions/(transaction_id)/verify
(verifyManually).  404 if the transaction is absent; otherwise
unconditionally overwrites status/method/notes/verified_at and, when the
requested status is VERIFIED, credits the cashback amount to the
transaction's user.  The source performs no admin-role check. -/
def admin_verify_transaction (db : DB) (transaction_id : String)
    (status : TransactionStatus) (notes : Option String) (uid : String)
    (now : Nat) : Except HTTPError DB :=
  match get_current_user db uid with
  | Except.error e => Except.error e
  | Except.ok _ =>
    match db.transactions.find? (fun t => t.id == transaction_id) with
    | none => Except.error ⟨404, "Transaction not found"⟩
    | some transaction =>
      let transactions' := updateOne (fun t => t.id == transaction_id)
        (fun t => { t with
                     status := status
                     verification_method := some VerificationMethod.MANUAL
                     verification_notes := notes
                     verified_at := some now })
        db.transactions
      let users' :=
        if status = TransactionStatus.VERIFIED then
          updateOne (fun u => u.id == transaction.user_id)
            (fun u => { u with cashback_balance := u.cashback_balance + transaction.cashback_amount })
            db.users
        else db.users
      Except.ok { db with transactions := transactions', users := users' }

/-- The store state after a webhook delivery: an HTTPException leaves the
store unchanged (the only raise precedes every write). -/
def dbAfterWebhook (db : DB) (order_id : Option String) (now : Nat) : DB :=
  match amazon_associates_webhook db order_id now with
  | Except.ok (db', _) => db'
  | Except.error _ => db

/-- The store state after a manual verification call. -/
def dbAfterAdminVerify (db : DB) (transaction_id : String)
    (status : TransactionStatus) (notes : Option String) (uid : String)
    (now : Nat) : DB :=
  match admin_verify_transaction db transaction_id status notes uid now with
  | Except.ok db' => db'
  | Except.error _ => db

/-- The store state after a redemption request. -/
def dbAfterRedemption (db : DB) (uid : String)
    (redemption : RedemptionRequestCreate) (newId : String) (now : Nat) : DB :=
  match create_redemption_request db uid redemption newId now with
  | Except.ok (db', _) => db'
  | Except.error _ => db

/-- The cashback balance of the (first) user with the given id. -/
def balanceOf (db : DB) (uid : String) : Option Rat :=
  (db.users.find? (fun u => u.id == uid)).map (fun u => u.cashback_balance)

/-- The status of the (first) transaction with the given id. -/
def statusOf (db : DB) (tid : String) : Option TransactionStatus :=
  (db.transactions.find? (fun t => t.id == tid)).map (fun t => t.status)

/-! Sample store states used to evaluate the endpoints on concrete inputs. -/

/-- A user with an empty cashback balance. -/
def sampleUser : User :=
  { id := "u1", email := "u1@example.com", name := "User One", created_at := 0,
    cashback_balance := 0 }

/-- A pending transaction of user u1 for order A-100 worth 5 of cashback. -/
def samplePendingTx : Transaction :=
  { id := "t1", user_id := "u1", product_id := "p1", amazon_order_id := some "A-100",
    amount := 100, cashback_amount := 5, status := TransactionStatus.PENDING,
    verification_method := some VerificationMethod.SELF_REPORTED, verified_at := none,
    verification_notes := none, screenshot_url := none, created_at := 0 }

/-- Store holding only u1 and the pending transaction t1. -/
def webhookReplayDB : DB :=
  { users := [sampleUser], products := [], transactions := [samplePendingTx],
    bank_accounts := [], upi_details := [], redemption_requests := [] }

/-- The same transaction already in the terminal REJECTED state. -/
def sampleRejectedTx : Transaction :=
  { samplePendingTx with id := "t2", status := TransactionStatus.REJECTED }

/-- Store holding u1 and the rejected transaction t2. -/
def rejectedTxDB : DB :=
  { webhookReplayDB with transactions := [sampleRejectedTx] }

/-- u1 with a balance of 30. -/
def richUser : User :=
  { sampleUser with cashback_balance := 30 }

/-- Store holding only u1 with balance 30; no bank accounts and no UPI
details are on file. -/
def redemptionDB : DB :=
  { users := [richUser], products := [], transactions := [], bank_accounts := [],
    upi_details := [], redemption_requests := [] }

/-- A product with 5 percent cashback. -/
def sampleProduct : Product :=
  { id := "p1", title := "Echo Dot", description := "Smart speaker", price := 50,
    image_url := "img", amazon_url := "amz", category := "Electronics",
    cashback_percent := 5, created_at := 0 }

/-- Store holding u1, product p1 and the pending transaction t1 (whose
order id A-100 is therefore already taken). -/
def claimDB : DB :=
  { webhookReplayDB with products := [sampleProduct] }

/-- A claim submission referencing p1 and re-using order id A-100. -/
def sampleClaim : TransactionCreate :=
  { product_id := "p1", amazon_order_id := some "A-100", amount := 100,
    verification_method := VerificationMethod.SELF_REPORTED, screenshot_url := none }

/-- One requestRedemption call: the authenticated user, the request body,
and the uuid/clock values the handler draws. -/
structure RedemptionCall where
  uid : String
  redemption : RedemptionRequestCreate
  newId : String
  now : Nat
deriving DecidableEq, Repr

/-- The store after a sequence of redemption requests, each applied to the
state left by the previous one. -/
def dbAfterRedemptions (db : DB) : List RedemptionCall → DB
  | [] => db
  | c :: cs => dbAfterRedemptions (dbAfterRedemption db c.uid c.redemption c.newId c.now) cs

/-- A sequence of three redemption requests against the balance-30 user:
one that succeeds, one that fails on funds, one that fails validation. -/
def sampleRedemptionCalls : List RedemptionCall :=
  [⟨"u1", { amount := 10, method := RedemptionMethod.BANK_TRANSFER,
            bank_account_id := some "b1", upi_id := none }, "r1", 1⟩,
   ⟨"u1", { amount := 100, method := RedemptionMethod.BANK_TRANSFER,
            bank_account_id := some "b1", upi_id := none }, "r2", 2⟩,
   ⟨"u1", { amount := 5, method := RedemptionMethod.UPI,
            bank_account_id := none, upi_id := none }, "r3", 3⟩]

/-- A bank-transfer redemption of 50 (more than the sample balance 30). -/
def fiftyRequest : RedemptionRequestCreate :=
  { amount := 50, method := RedemptionMethod.BANK_TRANSFER,
    bank_account_id := some "b1", upi_id := none }

/-- A bank-transfer redemption of exactly the sample balance 30. -/
def thirtyRequest : RedemptionRequestCreate :=
  { amount := 30, method := RedemptionMethod.BANK_TRANSFER,
    bank_account_id := some "b1", upi_id := none }

/-- A bank-transfer redemption of amount 0. -/
def zeroAmountRequest : RedemptionRequestCreate :=
  { amount := 0, method := RedemptionMethod.BANK_TRANSFER,
    bank_account_id := some "b1", upi_id := none }

/-- A bank-transfer redemption of amount -5. -/
def negativeAmountRequest : RedemptionRequestCreate :=
  { zeroAmountRequest with amount := -5 }

/-- A UPI redemption carrying a UPI id that belongs to no stored record,
together with a bank account id as well. -/
def bothRefsRequest : RedemptionRequestCreate :=
  { amount := 10, method := RedemptionMethod.UPI,
    bank_account_id := some "b9", upi_id := some "x@upi" }

/-! Helper lemmas about updateOne. -/

/-- updateOne on a cons whose head matches. -/
theorem updateOne_cons_pos {p : α → Bool} {f : α → α} {x : α} {xs : List α}
    (h : p x = true) : updateOne p f (x :: xs) = f x :: xs := by
  simp [updateOne, h]

/-- updateOne on a cons whose head does not match. -/
theorem updateOne_cons_neg {p : α → Bool} {f : α → α} {x : α} {xs : List α}
    (h : p x = false) : updateOne p f (x :: xs) = x :: updateOne p f xs := by
  simp [updateOne, h]

/-- Mapping a function that the update preserves is unchanged by updateOne. -/
theorem map_updateOne_of_preserved (g : α → β) (p : α → Bool) (f : α → α)
    (hf : ∀ x, g (f x) = g x) : ∀ l : List α, (updateOne p f l).map g = l.map g
  | [] => rfl
  | x :: xs => by
    cases hx : p x
    · rw [updateOne_cons_neg hx]
      simp [map_updateOne_of_preserved g p f hf xs]
    · rw [updateOne_cons_pos hx]
      simp [hf]

/-- If find? locates an element, then after updating the first match (with
an update under which the predicate is invariant), find? locates the
updated element. -/
theorem find?_updateOne_found (p : α → Bool) (f : α → α) (hpf : ∀ x, p (f x) = p x) :
    ∀ (l : List α) (a : α), l.find? p = some a → (updateOne p f l).find? p = some (f a)
  | [], a, h => by simp at h
  | x :: xs, a, h => by
    cases hx : p x
    · simp only [List.find?, hx] at h
      simp only [updateOne, hx, Bool.false_eq_true, if_false, List.find?]
      exact find?_updateOne_found p f hpf xs a h
    · simp only [List.find?, hx, Option.some.injEq] at h
      cases h
      simp only [updateOne, hx, if_true, List.find?, hpf]

/-- Debiting an amount bounded by the first tid-matching user's balance
keeps every non-negative balance non-negative. -/
theorem balance_debit_nonneg (tid : String) (amt : Rat) :
    ∀ (l : List User) (cu : User),
      l.find? (fun v => v.id == tid) = some cu →
      amt ≤ cu.cashback_balance →
      ∀ (u : String) (q : Rat),
        (l.find? (fun v => v.id == u)).map (fun v => v.cashback_balance) = some q →
        0 ≤ q →
        ∃ q', ((updateOne (fun v => v.id == tid)
              (fun v => { v with cashback_balance := v.cashback_balance - amt }) l).find?
              (fun v => v.id == u)).map (fun v => v.cashback_balance) = some q' ∧ 0 ≤ q'
  | [], cu, hcu, _, _, _, _, _ => by simp at hcu
  | x :: xs, cu, hcu, hamt, u, q, hq, h0 => by
    cases hx : (x.id == tid)
    · simp only [List.find?, hx] at hcu
      simp only [updateOne, hx, Bool.false_eq_true, if_false]
      cases hu : (x.id == u)
      · simp only [List.find?, hu] at hq ⊢
        exact balance_debit_nonneg tid amt xs cu hcu hamt u q hq h0
      · simp only [List.find?, hu] at hq ⊢
        exact ⟨q, hq, h0⟩
    · simp only [List.find?, hx, Option.some.injEq] at hcu
      subst hcu
      simp only [updateOne, hx, if_true]
      cases hu : (x.id == u)
      · simp only [List.find?, hu] at hq ⊢
        exact ⟨q, hq, h0⟩
      · simp only [List.find?, hu] at hq ⊢
        simp only [Option.map_some'] at hq ⊢
        refine ⟨x.cashback_balance - amt, rfl, ?_⟩
        cases hq
        linarith

/-- A single redemption request — successful or failed — keeps any
non-negative user balance non-negative. -/
theorem balanceOf_dbAfterRedemption_nonneg (db : DB) (uid : String)
    (r : RedemptionRequestCreate) (nid : String) (now : Nat) (u : String) (q : Rat)
    (hq : balanceOf db u = some q) (h0 : 0 ≤ q) :
    ∃ q', balanceOf (dbAfterRedemption db uid r nid now) u = some q' ∧ 0 ≤ q' := by
  unfold dbAfterRedemption create_redemption_request get_current_user
  cases hfind : db.users.find? (fun v => v.id == uid) with
  | none => exact ⟨q, hq, h0⟩
  | some cu =>
    have hcuid : cu.id = uid := by
      have h2 := List.find?_some hfind
      simpa using h2
    dsimp only
    by_cases hbal : cu.cashback_balance < r.amount
    · rw [if_pos hbal]
      exact ⟨q, hq, h0⟩
    · rw [if_neg hbal]
      by_cases hv1 : r.method = RedemptionMethod.BANK_TRANSFER ∧
          isBlank r.bank_account_id = true
      · rw [if_pos hv1]
        exact ⟨q, hq, h0⟩
      · rw [if_neg hv1]
        by_cases hv2 : r.method = RedemptionMethod.UPI ∧ isBlank r.upi_id = true
        · rw [if_pos hv2]
          exact ⟨q, hq, h0⟩
        · rw [if_neg hv2]
          simp only [balanceOf, hcuid] at hq ⊢
          exact balance_debit_nonneg uid r.amount db.users cu hfind (not_lt.mp hbal) u q hq h0

/-- Claim C3: any user whose cashback balance starts non-negative still
has a non-negative balance after any sequence of redemption requests,
successful or failed, by any users. -/
theorem C3_redemption_balance_nonneg (db : DB) (u : String) (q : Rat)
    (calls : List RedemptionCall) (hq : balanceOf db u = some q) (h0 : 0 ≤ q) :
    ∃ q', balanceOf (dbAfterRedemptions db calls) u = some q' ∧ 0 ≤ q' := by
  induction calls generalizing db q with
  | nil => exact ⟨q, hq, h0⟩
  | cons c cs ih =>
    obtain ⟨q', hq', h0'⟩ :=
      balanceOf_dbAfterRedemption_nonneg db c.uid c.redemption c.newId c.now u q hq h0
    exact ih (dbAfterRedemption db c.uid c.redemption c.newId c.now) q' hq' h0'

/-- Claim C3 witness: the sample user starts at 30 ≥ 0 and stays
non-negative across the sample call sequence. -/
theorem C3_redemption_balance_nonneg_witness :
    balanceOf redemptionDB "u1" = some 30 ∧ (0 : Rat) ≤ 30 ∧
    ∃ q', balanceOf (dbAfterRedemptions redemptionDB sampleRedemptionCalls) "u1" = some q'
      ∧ 0 ≤ q' :=
  ⟨by simp [balanceOf, redemptionDB, richUser, sampleUser], by norm_num,
   C3_redemption_balance_nonneg redemptionDB "u1" 30 sampleRedemptionCalls
     (by simp [balanceOf, redemptionDB, richUser, sampleUser]) (by norm_num)⟩

/-- Characterization of create_redemption_request once the authenticated
user has been resolved: the three checks in source order, then the debit
and the appended request. -/
theorem create_redemption_request_spec (db : DB) (uid : String)
    (r : RedemptionRequestCreate) (nid : String) (now : Nat) (cu : User)
    (hfind : db.users.find? (fun v => v.id == uid) = some cu) :
    create_redemption_request db uid r nid now =
      if cu.cashback_balance < r.amount then
        Except.error ⟨400, "Insufficient cashback balance"⟩
      else if r.method = RedemptionMethod.BANK_TRANSFER ∧ isBlank r.bank_account_id = true then
        Except.error ⟨400, "Bank account ID is required for bank transfers"⟩
      else if r.method = RedemptionMethod.UPI ∧ isBlank r.upi_id = true then
        Except.error ⟨400, "UPI ID is required for UPI transfers"⟩
      else
        Except.ok ({ db with
            users := updateOne (fun v => v.id == cu.id)
              (fun v => { v with cashback_balance := v.cashback_balance - r.amount }) db.users
            redemption_requests := db.redemption_requests ++
              [{ id := nid, user_id := cu.id, amount := r.amount, method := r.method,
                 status := RedemptionStatus.PENDING, bank_account_id := r.bank_account_id,
                 upi_id := r.upi_id, notes := none, created_at := now, processed_at := none }] },
          { id := nid, user_id := cu.id, amount := r.amount, method := r.method,
            status := RedemptionStatus.PENDING, bank_account_id := r.bank_account_id,
            upi_id := r.upi_id, notes := none, created_at := now, processed_at := none }) := by
  unfold create_redemption_request get_current_user
  rw [hfind]

/-- Claim C4: the request fails with InsufficientFunds exactly when the
amount exceeds the current balance; on that failure the store (balances
and redemption requests alike) is unchanged; and a request for exactly
the balance with a present destination succeeds. -/
theorem C4_insufficient_funds_iff (db : DB) (uid : String)
    (r : RedemptionRequestCreate) (nid : String) (now : Nat) (b : Rat)
    (hb : balanceOf db uid = some b) :
    (create_redemption_request db uid r nid now
        = Except.error ⟨400, "Insufficient cashback balance"⟩ ↔ b < r.amount)
    ∧ (b < r.amount → dbAfterRedemption db uid r nid now = db)
    ∧ (r.amount = b →
        ¬(r.method = RedemptionMethod.BANK_TRANSFER ∧ isBlank r.bank_account_id = true) →
        ¬(r.method = RedemptionMethod.UPI ∧ isBlank r.upi_id = true) →
        (create_redemption_request db uid r nid now).isOk = true) := by
  obtain ⟨cu, hfind, hbal⟩ : ∃ cu, db.users.find? (fun v => v.id == uid) = some cu ∧
      cu.cashback_balance = b := by
    simpa [balanceOf, Option.map_eq_some'] using hb
  have hspec := create_redemption_request_spec db uid r nid now cu hfind
  subst hbal
  refine ⟨?_, ?_, ?_⟩
  · by_cases hlt : cu.cashback_balance < r.amount
    · simp [hspec, hlt]
    · rw [hspec, if_neg hlt]
      by_cases hv1 : r.method = RedemptionMethod.BANK_TRANSFER ∧
          isBlank r.bank_account_id = true
      · simp [hv1, hlt]
      · rw [if_neg hv1]
        by_cases hv2 : r.method = RedemptionMethod.UPI ∧ isBlank r.upi_id = true
        · simp [hv2, hlt]
        · simp [if_neg hv2, hlt]
  · intro hlt
    unfold dbAfterRedemption
    rw [hspec, if_pos hlt]
  · intro heq hv1 hv2
    rw [hspec, if_neg (by rw [heq]; exact lt_irrefl _), if_neg hv1, if_neg hv2]
    rfl

/-- Claim C4 witness: with balance 30, requesting 50 fails with
InsufficientFunds and leaves the store unchanged, and requesting exactly
30 to a present bank account succeeds. -/
theorem C4_insufficient_funds_iff_witness :
    create_redemption_request redemptionDB "u1" fiftyRequest "r1" 0
      = Except.error ⟨400, "Insufficient cashback balance"⟩
    ∧ dbAfterRedemption redemptionDB "u1" fiftyRequest "r1" 0 = redemptionDB
    ∧ (create_redemption_request redemptionDB "u1" thirtyRequest "r2" 0).isOk = true :=
  have h50 := C4_insufficient_funds_iff redemptionDB "u1" fiftyRequest "r1" 0 30
    (by simp [balanceOf, redemptionDB, richUser, sampleUser])
  have h30 := C4_insufficient_funds_iff redemptionDB "u1" thirtyRequest "r2" 0 30
    (by simp [balanceOf, redemptionDB, richUser, sampleUser])
  ⟨h50.1.mpr (by norm_num [fiftyRequest]), h50.2.1 (by norm_num [fiftyRequest]),
   h30.2.2 (by norm_num [thirtyRequest]) (by simp [isBlank, thirtyRequest])
     (by simp [thirtyRequest])⟩

/-- Claim C5 counterexample: the code has no positivity check on the
amount.  With balance 30, a redemption of amount 0 does not fail with
ValidationError — it succeeds — and a redemption of amount -5 succeeds
and changes the balance from 30 to 35, refuting both halves of the
claim. -/
theorem C5_nonpositive_amount_accepted :
    (create_redemption_request redemptionDB "u1" zeroAmountRequest "r1" 0).isOk = true
    ∧ balanceOf (dbAfterRedemption redemptionDB "u1" negativeAmountRequest "r1" 0) "u1"
        = some 35 := by
  constructor <;>
  · norm_num [create_redemption_request, get_current_user, dbAfterRedemption, balanceOf,
      updateOne, isBlank, redemptionDB, richUser, sampleUser, zeroAmountRequest,
      negativeAmountRequest, Except.isOk, Except.toBool]
    simp

/-- Claim C5 amended: requestRedemption does not validate positivity of
the amount.  A request with amount ≤ 0 from a user with a non-negative
balance and a present destination reference is accepted (the balance
pre-check passes because a non-negative balance is never below a
non-positive amount), and the balance is debited by the non-positive
amount, i.e. it grows when the amount is negative. -/
theorem C5_amended_no_positivity_check (db : DB) (uid : String)
    (r : RedemptionRequestCreate) (nid : String) (now : Nat) (b : Rat)
    (hb : balanceOf db uid = some b) (h0 : 0 ≤ b) (hamt : r.amount ≤ 0)
    (hv1 : ¬(r.method = RedemptionMethod.BANK_TRANSFER ∧ isBlank r.bank_account_id = true))
    (hv2 : ¬(r.method = RedemptionMethod.UPI ∧ isBlank r.upi_id = true)) :
    (create_redemption_request db uid r nid now).isOk = true
    ∧ balanceOf (dbAfterRedemption db uid r nid now) uid = some (b - r.amount) := by
  obtain ⟨cu, hfind, hbal⟩ : ∃ cu, db.users.find? (fun v => v.id == uid) = some cu ∧
      cu.cashback_balance = b := by
    simpa [balanceOf, Option.map_eq_some'] using hb
  have hcuid : cu.id = uid := by
    have h2 := List.find?_some hfind
    simpa using h2
  have hspec := create_redemption_request_spec db uid r nid now cu hfind
  have hlt : ¬ cu.cashback_balance < r.amount := by
    rw [hbal]
    exact not_lt.mpr (hamt.trans h0)
  constructor
  · rw [hspec, if_neg hlt, if_neg hv1, if_neg hv2]
    rfl
  · unfold dbAfterRedemption
    rw [hspec, if_neg hlt, if_neg hv1, if_neg hv2]
    have hfound := find?_updateOne_found (fun v => v.id == uid)
      (fun v => { v with cashback_balance := v.cashback_balance - r.amount })
      (fun _ => rfl) db.users cu hfind
    simp only [balanceOf, hcuid]
    rw [hfound]
    simp [hbal]

/-- Claim C5 amended witness: amount -5 against balance 30 with a bank
account reference present is accepted and leaves balance 30 - (-5). -/
theorem C5_amended_no_positivity_check_witness :
    (create_redemption_request redemptionDB "u1" negativeAmountRequest "r9" 7).isOk = true
    ∧ balanceOf (dbAfterRedemption redemptionDB "u1" negativeAmountRequest "r9" 7) "u1"
        = some (30 - (-5)) :=
  C5_amended_no_positivity_check redemptionDB "u1" negativeAmountRequest "r9" 7 30
    (by simp [balanceOf, redemptionDB, richUser, sampleUser]) (by norm_num)
    (by norm_num [negativeAmountRequest, zeroAmountRequest])
    (by simp [isBlank, negativeAmountRequest, zeroAmountRequest])
    (by simp [negativeAmountRequest, zeroAmountRequest])

/-- Claim C6 counterexample: the sample store has no UPI details and no
bank accounts on file at all, so the supplied references belong to no
user, yet the request succeeds, and the created request carries both a
bank account reference and a UPI reference — refuting both the ownership
validation and the exactly-one-destination property. -/
theorem C6_foreign_destination_accepted :
    redemptionDB.upi_details = []
    ∧ redemptionDB.bank_accounts = []
    ∧ (create_redemption_request redemptionDB "u1" bothRefsRequest "r1" 0).toOption.map
        (fun x => (x.2.bank_account_id, x.2.upi_id)) = some (some "b9", some "x@upi") := by
  refine ⟨rfl, rfl, ?_⟩
  norm_num [create_redemption_request, get_current_user, updateOne, isBlank, redemptionDB,
    richUser, sampleUser, bothRefsRequest, Except.toOption]
  simp
  exact ⟨_, _, ⟨rfl, rfl⟩, rfl, rfl⟩

/-- Claim C6 amended: once the funds check passes, the request fails with
ValidationError exactly when the destination field for the chosen method
is missing or empty; ownership is never consulted (the outcome is the
same for every contents of the bank-account and UPI collections), and a
successful request stores both supplied destination references verbatim,
so it can carry a reference for the other method as well. -/
theorem C6_amended_destination_presence_only (db : DB) (uid : String)
    (r : RedemptionRequestCreate) (nid : String) (now : Nat) (b : Rat)
    (hb : balanceOf db uid = some b) (hfunds : ¬ b < r.amount) :
    (create_redemption_request db uid r nid now
        = Except.error ⟨400, "Bank account ID is required for bank transfers"⟩
      ↔ r.method = RedemptionMethod.BANK_TRANSFER ∧ isBlank r.bank_account_id = true)
    ∧ (create_redemption_request db uid r nid now
        = Except.error ⟨400, "UPI ID is required for UPI transfers"⟩
      ↔ r.method = RedemptionMethod.UPI ∧ isBlank r.upi_id = true)
    ∧ (∀ db' rec, create_redemption_request db uid r nid now = Except.ok (db', rec) →
        rec.bank_account_id = r.bank_account_id ∧ rec.upi_id = r.upi_id)
    ∧ (∀ ba ud, (create_redemption_request
          { db with bank_accounts := ba, upi_details := ud } uid r nid now).isOk
        = (create_redemption_request db uid r nid now).isOk) := by
  obtain ⟨cu, hfind, hbal⟩ : ∃ cu, db.users.find? (fun v => v.id == uid) = some cu ∧
      cu.cashback_balance = b := by
    simpa [balanceOf, Option.map_eq_some'] using hb
  have hspec := create_redemption_request_spec db uid r nid now cu hfind
  have hlt : ¬ cu.cashback_balance < r.amount := by
    rw [hbal]
    exact hfunds
  refine ⟨?_, ?_, ?_, ?_⟩
  · rw [hspec, if_neg hlt]
    by_cases hv1 : r.method = RedemptionMethod.BANK_TRANSFER ∧
        isBlank r.bank_account_id = true
    · simp [hv1]
    · rw [if_neg hv1]
      by_cases hv2 : r.method = RedemptionMethod.UPI ∧ isBlank r.upi_id = true
      · simp [hv2, hv1]
      · simp [if_neg hv2, hv1]
  · rw [hspec, if_neg hlt]
    by_cases hv1 : r.method = RedemptionMethod.BANK_TRANSFER ∧
        isBlank r.bank_account_id = true
    · have hne : ¬(r.method = RedemptionMethod.UPI ∧ isBlank r.upi_id = true) := by
        rintro ⟨h2, -⟩
        rw [hv1.1] at h2
        exact RedemptionMethod.noConfusion h2
      simp [hv1, hne]
    · rw [if_neg hv1]
      by_cases hv2 : r.method = RedemptionMethod.UPI ∧ isBlank r.upi_id = true
      · simp [hv2]
      · simp [if_neg hv2, hv2]
  · rw [hspec, if_neg hlt]
    by_cases hv1 : r.method = RedemptionMethod.BANK_TRANSFER ∧
        isBlank r.bank_account_id = true
    · simp [hv1]
    · rw [if_neg hv1]
      by_cases hv2 : r.method = RedemptionMethod.UPI ∧ isBlank r.upi_id = true
      · simp [hv2]
      · rw [if_neg hv2]
        intro db' rec h
        rw [Except.ok.injEq, Prod.mk.injEq] at h
        rw [← h.2]
        exact ⟨rfl, rfl⟩
  · intro ba ud
    have hfind2 : (DB.users { db with bank_accounts := ba, upi_details := ud }).find?
        (fun v => v.id == uid) = some cu := hfind
    have hspec2 := create_redemption_request_spec
      { db with bank_accounts := ba, upi_details := ud } uid r nid now cu hfind2
    rw [hspec, hspec2]
    by_cases hv1 : cu.cashback_balance < r.amount
    · rw [if_pos hv1, if_pos hv1]
    · rw [if_neg hv1, if_neg hv1]
      by_cases hv2 : r.method = RedemptionMethod.BANK_TRANSFER ∧
          isBlank r.bank_account_id = true
      · rw [if_pos hv2, if_pos hv2]
      · rw [if_neg hv2, if_neg hv2]
        by_cases hv3 : r.method = RedemptionMethod.UPI ∧ isBlank r.upi_id = true
        · rw [if_pos hv3, if_pos hv3]
        · rw [if_neg hv3, if_neg hv3]
          rfl

/-- Claim C6 amended witness: with the funds check passing (10 ≤ 30), a
UPI request with an empty-string UPI id fails with the UPI
ValidationError, and the successful both-references request stores both
references. -/
theorem C6_amended_destination_presence_only_witness :
    create_redemption_request redemptionDB "u1"
        { amount := 10, method := RedemptionMethod.UPI,
          bank_account_id := none, upi_id := some "" } "r1" 0
      = Except.error ⟨400, "UPI ID is required for UPI transfers"⟩
    ∧ (∀ db' rec, create_redemption_request redemptionDB "u1" bothRefsRequest "r1" 0
        = Except.ok (db', rec) →
        rec.bank_account_id = bothRefsRequest.bank_account_id
          ∧ rec.upi_id = bothRefsRequest.upi_id) :=
  have hempty := C6_amended_destination_presence_only redemptionDB "u1"
    { amount := 10, method := RedemptionMethod.UPI,
      bank_account_id := none, upi_id := some "" } "r1" 0 30
    (by simp [balanceOf, redemptionDB, richUser, sampleUser]) (by norm_num)
  have hboth := C6_amended_destination_presence_only redemptionDB "u1" bothRefsRequest
    "r1" 0 30 (by simp [balanceOf, redemptionDB, richUser, sampleUser])
    (by norm_num [bothRefsRequest])
  ⟨hempty.2.1.mpr ⟨rfl, by simp [isBlank]⟩, hboth.2.2.1⟩

/-- Claim C1: the code does not implement the idempotency the spec
requires.  Starting from a pending transaction worth 5 of cashback and a
zero balance, the first webhook delivery verifies it and credits 5, and
re-delivering the identical webhook for the now already-VERIFIED
transaction credits again, leaving 10; likewise two identical manual
verification calls leave 10.  The spec requires the balance to be
credited exactly once (second delivery a no-op), so this refutes the
claimed behavior on the code. -/
theorem C1_duplicate_verification_double_credits :
    statusOf (dbAfterWebhook webhookReplayDB (some "A-100") 1) "t1"
        = some TransactionStatus.VERIFIED
    ∧ balanceOf (dbAfterWebhook webhookReplayDB (some "A-100") 1) "u1" = some 5
    ∧ balanceOf (dbAfterWebhook (dbAfterWebhook webhookReplayDB (some "A-100") 1)
        (some "A-100") 2) "u1" = some 10
    ∧ balanceOf (dbAfterAdminVerify (dbAfterAdminVerify webhookReplayDB "t1"
        TransactionStatus.VERIFIED none "u1" 1) "t1" TransactionStatus.VERIFIED none "u1" 2)
        "u1" = some 10 := by
  refine ⟨?_, ?_, ?_, ?_⟩ <;>
    simp [statusOf, balanceOf, dbAfterWebhook, dbAfterAdminVerify,
      amazon_associates_webhook, admin_verify_transaction, get_current_user, updateOne,
      isBlank, webhookReplayDB, sampleUser, samplePendingTx] <;> norm_num

/-- Claim C2: VERIFIED/REJECTED are not in fact terminal in the code.
On a transaction already REJECTED, the manual verification call with
newStatus=VERIFIED does not fail with Conflict: it succeeds, moves the
status to VERIFIED and credits the cashback amount, where the spec
requires a Conflict rejection with the balance unchanged. -/
theorem C2_rejected_transaction_reverified :
    statusOf rejectedTxDB "t2" = some TransactionStatus.REJECTED
    ∧ balanceOf rejectedTxDB "u1" = some 0
    ∧ (admin_verify_transaction rejectedTxDB "t2" TransactionStatus.VERIFIED none "u1" 5).isOk
        = true
    ∧ statusOf (dbAfterAdminVerify rejectedTxDB "t2" TransactionStatus.VERIFIED none "u1" 5)
        "t2" = some TransactionStatus.VERIFIED
    ∧ balanceOf (dbAfterAdminVerify rejectedTxDB "t2" TransactionStatus.VERIFIED none "u1" 5)
        "u1" = some 5 := by
  refine ⟨?_, ?_, ?_, ?_, ?_⟩ <;>
    simp [statusOf, balanceOf, dbAfterAdminVerify, admin_verify_transaction,
      get_current_user, updateOne, rejectedTxDB, webhookReplayDB, sampleUser,
      sampleRejectedTx, samplePendingTx, Except.isOk, Except.toBool]

/-- Claim C9: a webhook delivery carrying an order id that matches no
stored transaction returns the soft no-match response with the store
unchanged, so every transaction and every balance is unchanged. -/
theorem C9_webhook_soft_no_match (db : DB) (s : String) (now : Nat)
    (hs : isBlank (some s) = false)
    (hmatch : db.transactions.find? (fun t => t.amazon_order_id == some s) = none) :
    amazon_associates_webhook db (some s) now = Except.ok (db, WebhookResponse.noMatch) := by
  unfold amazon_associates_webhook
  rw [hs]
  simp [hmatch]

/-- Claim C9 witness: the sample store has no transaction for order ZZZ,
and the webhook returns the soft no-match response leaving it unchanged. -/
theorem C9_webhook_soft_no_match_witness :
    amazon_associates_webhook redemptionDB (some "ZZZ") 1
      = Except.ok (redemptionDB, WebhookResponse.noMatch) :=
  C9_webhook_soft_no_match redemptionDB "ZZZ" 1 (by simp [isBlank])
    (by simp [redemptionDB])

/-- Claim C10: a webhook payload with no amazon_order_id value is
rejected with HTTP 400 "Missing order ID" (a hard error, not the soft
no-match response) and the store is unchanged. -/
theorem C10_missing_order_id_rejected (db : DB) (now : Nat) :
    amazon_associates_webhook db none now = Except.error ⟨400, "Missing order ID"⟩
    ∧ dbAfterWebhook db none now = db := by
  constructor <;> simp [amazon_associates_webhook, dbAfterWebhook, isBlank]

/-- Claim C7: submitClaim fails with NotFound when the product is
absent; otherwise it appends a PENDING transaction whose cashback amount
is amount × cashbackPercent / 100 (in particular 5 for amount 100 at 5
percent), and neither webhook nor manual verification ever changes any
stored transaction's cashback amount. -/
theorem C7_submit_claim_correct (db : DB) (uid : String) (t : TransactionCreate)
    (nid : String) (now : Nat)
    (hu : (db.users.find? (fun v => v.id == uid)).isSome = true) :
    (db.products.find? (fun q => q.id == t.product_id) = none →
      create_transaction db uid t nid now = Except.error ⟨404, "Product not found"⟩)
    ∧ (∀ p, db.products.find? (fun q => q.id == t.product_id) = some p →
        ∃ db' tx, create_transaction db uid t nid now = Except.ok (db', tx)
          ∧ tx.status = TransactionStatus.PENDING
          ∧ tx.cashback_amount = t.amount * p.cashback_percent / 100
          ∧ (t.amount = 100 → p.cashback_percent = 5 → tx.cashback_amount = 5)
          ∧ db'.transactions = db.transactions ++ [tx])
    ∧ (∀ oid now2,
        (dbAfterWebhook db oid now2).transactions.map (fun tx => tx.cashback_amount)
          = db.transactions.map (fun tx => tx.cashback_amount))
    ∧ (∀ tid st nts vuid now2,
        (dbAfterAdminVerify db tid st nts vuid now2).transactions.map
            (fun tx => tx.cashback_amount)
          = db.transactions.map (fun tx => tx.cashback_amount)) := by
  obtain ⟨cu, hfind⟩ := Option.isSome_iff_exists.mp hu
  refine ⟨?_, ?_, ?_, ?_⟩
  · intro hp
    unfold create_transaction get_current_user
    rw [hfind, hp]
  · intro p hp
    unfold create_transaction get_current_user
    rw [hfind, hp]
    refine ⟨_, _, rfl, rfl, rfl, ?_, rfl⟩
    intro h100 h5
    dsimp only
    rw [h100, h5]
    norm_num
  · intro oid now2
    unfold dbAfterWebhook amazon_associates_webhook
    by_cases hblank : isBlank oid = true
    · rw [if_pos hblank]
    · rw [if_neg hblank]
      cases hmatch : db.transactions.find? (fun tx => tx.amazon_order_id == oid) with
      | none => rfl
      | some tr =>
        dsimp only
        refine map_updateOne_of_preserved _ _ _ ?_ db.transactions
        intro x
        rfl
  · intro tid st nts vuid now2
    unfold dbAfterAdminVerify admin_verify_transaction get_current_user
    cases hv : db.users.find? (fun v => v.id == vuid) with
    | none => rfl
    | some _ =>
      cases hmatch : db.transactions.find? (fun tx => tx.id == tid) with
      | none => rfl
      | some tr =>
        dsimp only
        refine map_updateOne_of_preserved _ _ _ ?_ db.transactions
        intro x
        rfl

/-- Claim C7 witness: the sample claim (amount 100, product at 5
percent) yields a PENDING transaction with cashback exactly 5, appended
to the store. -/
theorem C7_submit_claim_correct_witness :
    ∃ db' tx, create_transaction claimDB "u1" sampleClaim "t9" 3 = Except.ok (db', tx)
      ∧ tx.status = TransactionStatus.PENDING
      ∧ tx.cashback_amount = sampleClaim.amount * sampleProduct.cashback_percent / 100
      ∧ (sampleClaim.amount = 100 → sampleProduct.cashback_percent = 5 →
          tx.cashback_amount = 5)
      ∧ db'.transactions = claimDB.transactions ++ [tx] :=
  (C7_submit_claim_correct claimDB "u1" sampleClaim "t9" 3
      (by simp [claimDB, webhookReplayDB, sampleUser])).2.1 sampleProduct
    (by simp [claimDB, webhookReplayDB, sampleProduct, sampleClaim])

/-- Claim C8 counterexample: the store already holds transaction t1 with
order id A-100, yet submitting a second claim with the same order id
succeeds (no Conflict), leaving two transactions that share order id
A-100 — uniqueness of externalOrderId is not enforced. -/
theorem C8_duplicate_order_id_accepted :
    samplePendingTx ∈ claimDB.transactions
    ∧ samplePendingTx.amazon_order_id = some "A-100"
    ∧ sampleClaim.amazon_order_id = some "A-100"
    ∧ (create_transaction claimDB "u1" sampleClaim "t9" 3).map
        (fun x => x.1.transactions.map (fun tx => tx.amazon_order_id))
      = Except.ok [some "A-100", some "A-100"] := by
  refine ⟨by simp [claimDB, webhookReplayDB], rfl, rfl, ?_⟩
  norm_num [create_transaction, get_current_user, claimDB, webhookReplayDB, sampleUser,
    samplePendingTx, sampleProduct, sampleClaim]
  rfl

/-- Claim C8 amended: create_transaction performs no duplicate check on
externalOrderId: when the user and the product exist, a claim whose
order id is already present on a stored transaction is accepted all the
same and appended, so externalOrderId uniqueness is not an invariant of
the store. -/
theorem C8_amended_no_uniqueness_check (db : DB) (uid : String) (t : TransactionCreate)
    (nid : String) (now : Nat)
    (hu : (db.users.find? (fun v => v.id == uid)).isSome = true)
    (hp : (db.products.find? (fun q => q.id == t.product_id)).isSome = true)
    (_hdup : ∃ tx0, tx0 ∈ db.transactions ∧ tx0.amazon_order_id = t.amazon_order_id) :
    ∃ db' tx, create_transaction db uid t nid now = Except.ok (db', tx)
      ∧ tx.amazon_order_id = t.amazon_order_id
      ∧ db'.transactions = db.transactions ++ [tx] := by
  obtain ⟨cu, hfind⟩ := Option.isSome_iff_exists.mp hu
  obtain ⟨p, hpfind⟩ := Option.isSome_iff_exists.mp hp
  unfold create_transaction get_current_user
  rw [hfind, hpfind]
  exact ⟨_, _, rfl, rfl, rfl⟩

/-- Claim C8 amended witness: the duplicate-order-id sample claim is
accepted and appended. -/
theorem C8_amended_no_uniqueness_check_witness :
    ∃ db' tx, create_transaction claimDB "u1" sampleClaim "t9" 3 = Except.ok (db', tx)
      ∧ tx.amazon_order_id = sampleClaim.amazon_order_id
      ∧ db'.transactions = claimDB.transactions ++ [tx] :=
  C8_amended_no_uniqueness_check claimDB "u1" sampleClaim "t9" 3
    (by simp [claimDB, webhookReplayDB, sampleUser])
    (by simp [claimDB, webhookReplayDB, sampleProduct, sampleClaim])
    ⟨samplePendingTx, by simp [claimDB, webhookReplayDB], rfl⟩

end CashX
